import Mathlib

/-!
Shallow embedding of `src/dist/pip/bivvy/__init__.py` (the whole repository:
a self-installing launcher for the `bivvy` binary).

Modelling conventions:
* The cache directory (`BINARY_DIR` in the source) is modelled as a single
  `FileSystem`: an association list from file name to file (content plus
  permission mode).  `BINARY_PATH` is the key `BINARY_NAME` in that directory.
* `sys.platform == "win32"` is the Boolean `Env.win32`; `platform.system()`
  and `platform.machine()` are the raw strings `Env.system` / `Env.machine`.
* The network (`urllib.request.urlopen`) composed with gzip-tar decoding
  (`tarfile.open(..., "r:gz")` + `getmembers()`) is the oracle `Env.fetch`,
  mapping a URL to either an error (connection/HTTP/decode failure) or the
  list of archive members in archive order.
* `subprocess.run` on an existing cached binary is the oracle `Env.runChild`,
  giving the child's exit code (an `Int`: Python returncodes are negative for
  signal deaths) for the executed command vector.  Running a missing binary
  raises, modelled as `fileNotFound`.
* Python exceptions are `Except BivvyError`; `print` appends to `State.log`;
  each performed fetch appends its URL to `State.fetched`.
* `str.lower()` is `strLower`, per-character ASCII lowercasing.
-/

deriving instance DecidableEq for Except

namespace Bivvy

/-- Python `str.lower()` (per-character lowercasing of the string). -/
def strLower (s : String) : String := String.mk (s.data.map Char.toLower)

/-- `GITHUB_REPO = "bivvy-dev/bivvy"` from the source. -/
def GITHUB_REPO : String := "bivvy-dev/bivvy"

/-- `__version__ = "1.0.1"` from the source. -/
def version : String := "1.0.1"

/-- `BINARY_NAME = "bivvy.exe" if sys.platform == "win32" else "bivvy"`. -/
def BINARY_NAME ( win32 : Bool) : String := if win32 then "bivvy.exe" else "bivvy"

/-- A tar archive member: its name, its content (bytes), its permission mode. -/
structure TarMember where
  name : String
  content : List Nat
  mode : Nat
  deriving DecidableEq

/-- A file in the cache directory: content bytes plus permission mode. -/
structure FSFile where
  content : List Nat
  mode : Nat
  deriving DecidableEq

/-- The cache directory `BINARY_DIR`, as an association list keyed by file name. -/
structure FileSystem where
  files : List (String × FSFile)
  deriving DecidableEq

/-- Look a file up in the cache directory. -/
def fsLookup (fs : FileSystem) (name : String) : Option FSFile :=
  (fs.files.find? (fun p => p.1 == name)).map (fun p => p.2)

/-- Create or overwrite a file in the cache directory. -/
def fsWrite (fs : FileSystem) (name : String) (f : FSFile) : FileSystem :=
  ⟨(name, f) :: fs.files.filter (fun p => p.1 != name)⟩

/-- The Python exceptions the launcher can raise. -/
inductive BivvyError where
  | unsupportedPlatform (system machine : String)
  | networkError (msg : String)
  | fileNotFound (path : String)
  deriving DecidableEq

/-- `os_map = {"darwin": "darwin", "linux": "linux", "windows": "windows"}`. -/
def os_map : List (String × String) :=
  [("darwin", "darwin"), ("linux", "linux"), ("windows", "windows")]

/-- `arch_map = {"x86_64": "x64", "amd64": "x64", "arm64": "arm64", "aarch64": "arm64"}`. -/
def arch_map : List (String × String) :=
  [("x86_64", "x64"), ("amd64", "x64"), ("arm64", "arm64"), ("aarch64", "arm64")]

/-- Python `dict.get`: `some` of the value when the key is present, else `none`. -/
def dictGet (d : List (String × String)) (k : String) : Option String :=
  (d.find? (fun p => p.1 == k)).map (fun p => p.2)

/-- Python truthiness of an optional string (`not x` is true for `None` and `""`). -/
def truthy : Option String → Bool
  | none => false
  | some s => !s.isEmpty

/-- `get_platform()`, taking the raw `platform.system()` / `platform.machine()`
strings as arguments.  Returns the `"os-arch"` tag, or raises
`RuntimeError(f"Unsupported platform: \x7bsystem\x7d-\x7bmachine\x7d")` where
`system`/`machine` are the already-lowercased local variables. -/
def get_platform (system machine : String) : Except BivvyError String :=
  let s := strLower system
  let m := strLower machine
  let os_name := dictGet os_map s
  let arch_name := dictGet arch_map m
  if truthy os_name && truthy arch_name then
    Except.ok (os_name.getD "" ++ "-" ++ arch_name.getD "")
  else
    Except.error (BivvyError.unsupportedPlatform s m)

/-- The download URL built in `download_binary`:
`f"https://github.com/\x7bGITHUB_REPO\x7d/releases/download/\x7b__version__\x7d/bivvy-\x7bplat\x7d.tar.gz"`. -/
def bivvyUrl (plat : String) : String :=
  "https://github.com/" ++ GITHUB_REPO ++ "/releases/download/" ++ version ++
    "/bivvy-" ++ plat ++ ".tar.gz"

/-- Observable state threaded through a run: the cache directory, the list of
URLs fetched so far (in order), and the lines printed so far. -/
structure State where
  fs : FileSystem
  fetched : List String
  log : List String
  deriving DecidableEq

/-- The host environment of one invocation: raw platform strings, whether
`sys.platform == "win32"`, the forwarded argument vector `sys.argv[1:]`, the
network/archive oracle, and the child-process oracle. -/
structure Env where
  system : String
  machine : String
  win32 : Bool
  argv : List String
  fetch : String → Except BivvyError (List TarMember)
  runChild : List String → Int

/-- The member loop of `download_binary`: for each member named `"bivvy"`, in
archive order, rename it to `BINARY_NAME` and extract it into the cache
directory.  Returns the resulting directory together with the chronological
list of writes performed (destination name and file written). -/
def extractLoop ( win32 : Bool) (fs : FileSystem) :
    List TarMember → FileSystem × List (String × FSFile)
  | [] => (fs, [])
  | m :: rest =>
    if m.name == "bivvy" then
      let f : FSFile := ⟨m.content, m.mode⟩
      let r := extractLoop win32 (fsWrite fs (BINARY_NAME win32) f) rest
      (r.1, (BINARY_NAME win32, f) :: r.2)
    else extractLoop win32 fs rest

/-- `Path.chmod`: raises `FileNotFoundError` when the path does not exist,
otherwise replaces the file's permission mode. -/
def fsChmod (fs : FileSystem) (name : String) (mode : Nat) :
    Except BivvyError FileSystem :=
  match fsLookup fs name with
  | none => Except.error (BivvyError.fileNotFound name)
  | some f => Except.ok (fsWrite fs name ⟨f.content, mode⟩)

/-- `download_binary()`: resolve the platform, build the URL, print the
download message, create the cache directory (a no-op in this model), fetch
and decode the archive, extract every member named `"bivvy"` under
`BINARY_NAME`, then on non-Windows `chmod 0o755` the cache path, and print the
success message. -/
def download_binary (env : Env) (st : State) : State × Except BivvyError Unit :=
  match get_platform env.system env.machine with
  | Except.error e => (st, Except.error e)
  | Except.ok plat =>
    let url := bivvyUrl plat
    let st1 : State := { st with log := st.log ++ ["Downloading bivvy from " ++ url] }
    let st2 : State := { st1 with fetched := st1.fetched ++ [url] }
    match env.fetch url with
    | Except.error e => (st2, Except.error e)
    | Except.ok members =>
      let st3 : State := { st2 with fs := (extractLoop env.win32 st2.fs members).1 }
      if env.win32 then
        ({ st3 with log := st3.log ++ ["bivvy installed successfully"] }, Except.ok ())
      else
        match fsChmod st3.fs (BINARY_NAME env.win32) 493 with
        | Except.error e => (st3, Except.error e)
        | Except.ok fs2 =>
          ({ st3 with fs := fs2, log := st3.log ++ ["bivvy installed successfully"] },
            Except.ok ())

/-- `ensure_binary()`: download only when `BINARY_PATH` does not exist, then
return `BINARY_PATH` (unconditionally). -/
def ensure_binary (env : Env) (st : State) : State × Except BivvyError String :=
  if (fsLookup st.fs (BINARY_NAME env.win32)).isSome then
    (st, Except.ok (BINARY_NAME env.win32))
  else
    match download_binary env st with
    | (st2, Except.error e) => (st2, Except.error e)
    | (st2, Except.ok _) => (st2, Except.ok (BINARY_NAME env.win32))

/-- Outcome of `main()`: either the launcher called `sys.exit` with the child's
returncode after spawning the child with the given command vector, or an
exception escaped before any child was spawned. -/
inductive MainResult where
  | exited (cmd : List String) (code : Int)
  | err (e : BivvyError)
  deriving DecidableEq

/-- `main()`: ensure the binary, spawn
`subprocess.run([str(binary), *sys.argv[1:]])` (which raises `FileNotFoundError`
when the binary path does not exist), and exit with the child's returncode. -/
def main (env : Env) (st : State) : State × MainResult :=
  match ensure_binary env st with
  | (st2, Except.error e) => (st2, MainResult.err e)
  | (st2, Except.ok binary) =>
    if (fsLookup st2.fs binary).isSome then
      let cmd := binary :: env.argv
      (st2, MainResult.exited cmd (env.runChild cmd))
    else
      (st2, MainResult.err (BivvyError.fileNotFound binary))

/-!
Concrete environments and states used to evaluate the embedded operations on
specific inputs (witnesses and counterexamples below).
-/

/-- An empty cache directory with nothing fetched or printed yet. -/
def stEmpty : State := ⟨⟨[]⟩, [], []⟩

/-- A state whose cache directory already holds the installed binary. -/
def stCached : State := ⟨⟨[("bivvy", ⟨[1], 493⟩)]⟩, [], []⟩

/-- A POSIX host with the binary already cached; the network is down and the
child exits with code `-7` (killed by a signal). -/
def envCached : Env :=
  { system := "Linux", machine := "x86_64", win32 := false, argv := ["--help", "-v"]
    fetch := fun _ => Except.error (BivvyError.networkError "offline")
    runChild := fun _ => -7 }

/-- A host whose OS is outside the known map. -/
def envBad : Env :=
  { system := "Plan9", machine := "mips", win32 := false, argv := []
    fetch := fun _ => Except.error (BivvyError.networkError "offline")
    runChild := fun _ => 0 }

/-- A Darwin/arm64 host whose release archive holds one `bivvy` entry plus two
decoy entries; the child exits with code 3. -/
def envOne : Env :=
  { system := "Darwin", machine := "arm64", win32 := false, argv := ["--version"]
    fetch := fun _ => Except.ok
      [⟨"LICENSE", [9], 420⟩, ⟨"bivvy", [1, 2], 493⟩, ⟨"checksums.txt", [3], 420⟩]
    runChild := fun _ => 3 }

/-- A Windows host whose release archive holds no `bivvy` entry at all. -/
def envWinNoEntry : Env :=
  { system := "Windows", machine := "amd64", win32 := true, argv := []
    fetch := fun _ => Except.ok [⟨"LICENSE", [76], 420⟩, ⟨"README.md", [82], 420⟩]
    runChild := fun _ => 0 }

/-- A Linux host whose release archive holds no `bivvy` entry at all. -/
def envNoEntry : Env :=
  { system := "Linux", machine := "x86_64", win32 := false, argv := []
    fetch := fun _ => Except.ok [⟨"LICENSE", [76], 420⟩, ⟨"README.md", [82], 420⟩]
    runChild := fun _ => 0 }

/-- A Linux/aarch64 host whose release archive holds two entries both named
`bivvy`, with different contents. -/
def envTwo : Env :=
  { system := "Linux", machine := "aarch64", win32 := false, argv := []
    fetch := fun _ => Except.ok [⟨"bivvy", [1], 420⟩, ⟨"bivvy", [2, 2], 493⟩]
    runChild := fun _ => 0 }

/-!
Helper lemmas about the embedded operations (shared by the claim theorems).
-/

theorem fsLookup_fsWrite_self (fs : FileSystem) (k : String) (f : FSFile) :
    fsLookup (fsWrite fs k f) k = some f := by
  simp [fsLookup, fsWrite, List.find?]

theorem extractLoop_no_match ( win32 : Bool) (fs : FileSystem)
    (members : List TarMember) :
    (∀ m ∈ members, ¬ m.name = "bivvy") → extractLoop win32 fs members = (fs, []) := by
  induction members with
  | nil => intro h; rfl
  | cons m rest ih =>
    intro h
    have hm : ¬ m.name = "bivvy" := h m (List.mem_cons_self m rest)
    have hb : (m.name == "bivvy") = false := by simp [hm]
    simp only [extractLoop, hb, Bool.false_eq_true, if_false]
    exact ih (fun x hx => h x (List.mem_cons_of_mem m hx))

theorem extractLoop_log ( win32 : Bool) (members : List TarMember) :
    ∀ fs : FileSystem, (extractLoop win32 fs members).2 =
      (members.filter (fun m => m.name == "bivvy")).map
        (fun m => (BINARY_NAME win32, (⟨m.content, m.mode⟩ : FSFile))) := by
  induction members with
  | nil => intro fs; rfl
  | cons m rest ih =>
    intro fs
    by_cases hm : m.name = "bivvy"
    · have hb : (m.name == "bivvy") = true := by simp [hm]
      simp only [extractLoop, hb, if_true, List.filter_cons, List.map_cons]
      rw [ih]
    · have hb : (m.name == "bivvy") = false := by simp [hm]
      simp only [extractLoop, hb, Bool.false_eq_true, if_false]
      rw [List.filter_cons]
      simp only [hb, Bool.false_eq_true, if_false]
      rw [ih]

theorem extractLoop_lookup ( win32 : Bool) (members : List TarMember) :
    ∀ fs : FileSystem, fsLookup (extractLoop win32 fs members).1 (BINARY_NAME win32) =
      match (members.filter (fun m => m.name == "bivvy")).getLast? with
      | some m => some ⟨m.content, m.mode⟩
      | none => fsLookup fs (BINARY_NAME win32) := by
  induction members with
  | nil => intro fs; rfl
  | cons m rest ih =>
    intro fs
    by_cases hm : m.name = "bivvy"
    · have hb : (m.name == "bivvy") = true := by simp [hm]
      rw [List.filter_cons]
      simp only [hb, if_true]
      simp only [extractLoop, hb, if_true]
      rw [ih]
      cases hl : (rest.filter (fun x => x.name == "bivvy")).getLast? with
      | none =>
        rw [List.getLast?_eq_none_iff.mp hl]
        simp [fsLookup_fsWrite_self]
      | some m2 =>
        have hne : rest.filter (fun x => x.name == "bivvy") ≠ [] := by
          intro hcon
          rw [hcon] at hl
          cases hl
        obtain ⟨b, t, hbt⟩ := List.exists_cons_of_ne_nil hne
        rw [hbt]
        rw [hbt] at hl
        simp only [List.getLast?_cons_cons, hl]
    · have hb : (m.name == "bivvy") = false := by simp [hm]
      rw [List.filter_cons]
      simp only [hb, Bool.false_eq_true, if_false]
      simp only [extractLoop, hb, Bool.false_eq_true, if_false]
      exact ih fs

theorem extractLoop_single ( win32 : Bool) (members : List TarMember) (m : TarMember) :
    members.filter (fun x => x.name == "bivvy") = [m] →
    extractLoop win32 ⟨[]⟩ members =
      (⟨[(BINARY_NAME win32, ⟨m.content, m.mode⟩)]⟩,
        [(BINARY_NAME win32, (⟨m.content, m.mode⟩ : FSFile))]) := by
  induction members with
  | nil => intro h; cases h
  | cons x rest ih =>
    intro h
    by_cases hx : x.name = "bivvy"
    · have hb : (x.name == "bivvy") = true := by simp [hx]
      rw [List.filter_cons] at h
      simp only [hb, if_true] at h
      injection h with h1 h2
      subst h1
      have hnm : ∀ y ∈ rest, ¬ y.name = "bivvy" := by
        intro y hy
        have := List.filter_eq_nil_iff.mp h2 y hy
        simpa using this
      simp only [extractLoop, hb, if_true]
      rw [extractLoop_no_match win32 _ rest hnm]
      rfl
    · have hb : (x.name == "bivvy") = false := by simp [hx]
      rw [List.filter_cons] at h
      simp only [hb, Bool.false_eq_true, if_false] at h
      simp only [extractLoop, hb, Bool.false_eq_true, if_false]
      exact ih h

theorem dictGet_mem (d : List (String × String)) (k v : String)
    (h : dictGet d k = some v) : ∃ p ∈ d, p.2 = v := by
  unfold dictGet at h
  cases hf : d.find? (fun p => p.1 == k) with
  | none => rw [hf] at h; cases h
  | some p =>
    rw [hf] at h
    refine ⟨p, List.mem_of_find?_eq_some hf, ?_⟩
    simpa using h

theorem os_map_val_nonempty (k v : String) (h : dictGet os_map k = some v) :
    v.isEmpty = false := by
  obtain ⟨p, hp, he⟩ := dictGet_mem os_map k v h
  subst he
  simp only [os_map, List.mem_cons, List.not_mem_nil, or_false] at hp
  rcases hp with h1 | h1 | h1 <;> subst h1 <;> rfl

theorem arch_map_val_nonempty (k v : String) (h : dictGet arch_map k = some v) :
    v.isEmpty = false := by
  obtain ⟨p, hp, he⟩ := dictGet_mem arch_map k v h
  subst he
  simp only [arch_map, List.mem_cons, List.not_mem_nil, or_false] at hp
  rcases hp with h1 | h1 | h1 | h1 <;> subst h1 <;> rfl

theorem get_platform_ok (system machine os arch : String)
    (h1 : dictGet os_map (strLower system) = some os)
    (h2 : dictGet arch_map (strLower machine) = some arch) :
    get_platform system machine = Except.ok (os ++ "-" ++ arch) := by
  simp only [get_platform]
  rw [h1, h2]
  simp [truthy, os_map_val_nonempty _ _ h1, arch_map_val_nonempty _ _ h2]

theorem get_platform_miss (system machine : String)
    (h : dictGet os_map (strLower system) = none ∨
      dictGet arch_map (strLower machine) = none) :
    get_platform system machine =
      Except.error (BivvyError.unsupportedPlatform (strLower system) (strLower machine)) := by
  simp only [get_platform]
  rcases h with h | h <;> rw [h] <;> simp [truthy]

theorem main_cached (env : Env) (st : State)
    (h : (fsLookup st.fs (BINARY_NAME env.win32)).isSome = true) :
    main env st = (st, MainResult.exited (BINARY_NAME env.win32 :: env.argv)
      (env.runChild (BINARY_NAME env.win32 :: env.argv))) := by
  unfold main ensure_binary
  simp [h]

theorem download_binary_run (env : Env) (st : State) (plat : String)
    (members : List TarMember) (m : TarMember)
    (hplat : get_platform env.system env.machine = Except.ok plat)
    (hfetch : env.fetch (bivvyUrl plat) = Except.ok members)
    (hlast : (members.filter (fun x => x.name == "bivvy")).getLast? = some m) :
    (download_binary env st).2 = Except.ok () ∧
    (download_binary env st).1.fetched = st.fetched ++ [bivvyUrl plat] ∧
    fsLookup (download_binary env st).1.fs (BINARY_NAME env.win32) =
      some ⟨m.content, if env.win32 then m.mode else 493⟩ := by
  have hex : fsLookup (extractLoop env.win32 st.fs members).1 (BINARY_NAME env.win32) =
      some ⟨m.content, m.mode⟩ := by
    rw [extractLoop_lookup, hlast]
  simp only [download_binary, hplat, hfetch]
  cases hw : env.win32 with
  | true =>
    rw [hw] at hex
    simp only [if_true]
    refine ⟨trivial, trivial, ?_⟩
    simpa using hex
  | false =>
    rw [hw] at hex
    simp only [Bool.false_eq_true, if_false]
    have hchmod : fsChmod (extractLoop false st.fs members).1 (BINARY_NAME false) 493 =
        Except.ok (fsWrite (extractLoop false st.fs members).1 (BINARY_NAME false)
          ⟨m.content, 493⟩) := by
      unfold fsChmod
      rw [hex]
    simp only [hchmod]
    refine ⟨trivial, trivial, ?_⟩
    simpa using fsLookup_fsWrite_self (extractLoop false st.fs members).1
      (BINARY_NAME false) ⟨m.content, 493⟩

/-!
Claim theorems.
-/

/-- Claim C1 (code gap, refuting evaluation): on a Windows host whose archive
contains no entry named `bivvy`, `download_binary` does NOT fail: it returns
normally, leaves the cache directory empty, and prints the success message.
The claim (and the spec's stated invariant) require a fatal install error
here, so this is a bug in the code, not in the claim. -/
theorem claim_C1_code_gap :
    (download_binary envWinNoEntry stEmpty).2 = Except.ok () ∧
    (download_binary envWinNoEntry stEmpty).1.fs.files = [] ∧
    (download_binary envWinNoEntry stEmpty).1.log =
      ["Downloading bivvy from " ++ bivvyUrl "windows-x64",
        "bivvy installed successfully"] := by
  decide

/-- Claim C2: whenever `ensure_binary` succeeds and the returned cache path
exists, `main` spawns exactly `[binary] ++ sys.argv[1:]` (the received
arguments verbatim, in order) and the launcher's exit code is exactly the
child's returncode, whatever `Int` (including negative values) that is. -/
theorem claim_C2 (env : Env) (st st2 : State) (binary : String)
    (h1 : ensure_binary env st = (st2, Except.ok binary))
    (h2 : (fsLookup st2.fs binary).isSome = true) :
    main env st = (st2, MainResult.exited (binary :: env.argv)
      (env.runChild (binary :: env.argv))) := by
  unfold main
  rw [h1]
  simp [h2]

/-- Witness for C2: with the binary cached and `sys.argv[1:] = ["--help","-v"]`,
the child command is `["bivvy", "--help", "-v"]` and the launcher exits with
the child's (negative) returncode `-7`. -/
theorem claim_C2_witness :
    main envCached stCached =
      (stCached, MainResult.exited ["bivvy", "--help", "-v"] (-7)) :=
  claim_C2 envCached stCached stCached "bivvy" (by decide) (by decide)

/-- Claim C3: if any step of the install path fails (so `ensure_binary` returns
an error), `main` aborts with that error and never spawns a child; conversely
a child is spawned only when `ensure_binary` succeeded. -/
theorem claim_C3 (env : Env) (st : State) :
    (∀ e, (ensure_binary env st).2 = Except.error e →
      main env st = ((ensure_binary env st).1, MainResult.err e)) ∧
    (∀ st2 cmd code, main env st = (st2, MainResult.exited cmd code) →
      ∃ b, (ensure_binary env st).2 = Except.ok b) := by
  rcases he : ensure_binary env st with ⟨sta, r⟩
  unfold main
  rw [he]
  cases r with
  | error e0 =>
    refine ⟨fun e h => ?_, fun st2 cmd code h => ?_⟩
    · simp only at h
      injection h with h1
      subst h1
      rfl
    · simp at h
  | ok b0 =>
    refine ⟨fun e h => ?_, fun st2 cmd code h => ?_⟩
    · simp at h
    · exact ⟨b0, rfl⟩

/-- Witness for C3: on an unsupported host the platform-resolution error aborts
`main` before any child process is spawned. -/
theorem claim_C3_witness :
    main envBad stEmpty = ((ensure_binary envBad stEmpty).1,
      MainResult.err (BivvyError.unsupportedPlatform "plan9" "mips")) :=
  (claim_C3 envBad stEmpty).1 (BivvyError.unsupportedPlatform "plan9" "mips") (by decide)

/-- Claim C4: every `(system, machine)` pair whose lowercasing is in both maps
resolves to the `"os-arch"` tag built from the two map values; any pair with a
missing lookup fails with the unsupported-platform error; the aliases
`x86_64`/`amd64` fold to `x64` and `arm64`/`aarch64` fold to `arm64`. -/
theorem claim_C4 (system machine : String) :
    (∀ os arch, dictGet os_map (strLower system) = some os →
        dictGet arch_map (strLower machine) = some arch →
        get_platform system machine = Except.ok (os ++ "-" ++ arch)) ∧
    ((dictGet os_map (strLower system) = none ∨
        dictGet arch_map (strLower machine) = none) →
      ∃ s m, get_platform system machine =
        Except.error (BivvyError.unsupportedPlatform s m)) ∧
    get_platform "Darwin" "arm64" = Except.ok "darwin-arm64" ∧
    get_platform "Linux" "x86_64" = Except.ok "linux-x64" ∧
    get_platform "Linux" "amd64" = Except.ok "linux-x64" ∧
    get_platform "Darwin" "aarch64" = Except.ok "darwin-arm64" ∧
    get_platform "Windows" "amd64" = Except.ok "windows-x64" ∧
    get_platform "Linux" "arm64" = Except.ok "linux-arm64" :=
  ⟨fun os arch h1 h2 => get_platform_ok system machine os arch h1 h2,
    fun h => ⟨strLower system, strLower machine, get_platform_miss system machine h⟩,
    by decide, by decide, by decide, by decide, by decide, by decide⟩

/-- Witness for C4: `("Darwin", "x86_64")` is in both maps and resolves to
`"darwin-x64"`. -/
theorem claim_C4_witness :
    get_platform "Darwin" "x86_64" = Except.ok ("darwin" ++ "-" ++ "x64") :=
  (claim_C4 "Darwin" "x86_64").1 "darwin" "x64" (by decide) (by decide)

/-- Counterexample for C5: for the unsupported raw pair `("FreeBSD", "x86_64")`
the error carries the lowercased pair `("freebsd", "x86_64")`, not the raw
pair as read from the host, contradicting the claim as stated. -/
theorem claim_C5_counterexample :
    get_platform "FreeBSD" "x86_64" =
      Except.error (BivvyError.unsupportedPlatform "freebsd" "x86_64") ∧
    get_platform "FreeBSD" "x86_64" ≠
      Except.error (BivvyError.unsupportedPlatform "FreeBSD" "x86_64") := by
  decide

/-- Claim C5 (amended): whenever either dictionary lookup misses, the error
carries the case-normalized (lowercased) `(system, machine)` pair used for the
lookups, not the raw host values. -/
theorem claim_C5 (system machine : String)
    (h : dictGet os_map (strLower system) = none ∨
      dictGet arch_map (strLower machine) = none) :
    get_platform system machine =
      Except.error
        (BivvyError.unsupportedPlatform (strLower system) (strLower machine)) :=
  get_platform_miss system machine h

/-- Witness for C5 (amended): the raw pair `("NetBSD", "sparc64")` produces the
error carrying `("netbsd", "sparc64")`. -/
theorem claim_C5_witness :
    get_platform "NetBSD" "sparc64" =
      Except.error (BivvyError.unsupportedPlatform "netbsd" "sparc64") :=
  claim_C5 "NetBSD" "sparc64" (Or.inl (by decide))

/-- Claim C6: for an archive whose only entry named `bivvy` is `m` (plus any
decoys), starting from an empty cache directory, the install succeeds and the
directory afterwards holds exactly one file, named `bivvy.exe` on Windows and
`bivvy` otherwise, with mode `0o755` (`493`) on non-Windows and the member's
own mode (permission step skipped) on Windows. -/
theorem claim_C6 (env : Env) (st : State) (plat : String) (members : List TarMember)
    (m : TarMember)
    (hplat : get_platform env.system env.machine = Except.ok plat)
    (hfetch : env.fetch (bivvyUrl plat) = Except.ok members)
    (hone : members.filter (fun x => x.name == "bivvy") = [m])
    (hempty : st.fs = ⟨[]⟩) :
    (download_binary env st).2 = Except.ok () ∧
    (download_binary env st).1.fs.files =
      [(BINARY_NAME env.win32, ⟨m.content, if env.win32 then m.mode else 493⟩)] ∧
    BINARY_NAME true = "bivvy.exe" ∧ BINARY_NAME false = "bivvy" := by
  have hext := extractLoop_single env.win32 members m hone
  simp only [download_binary, hplat, hfetch, hempty, hext]
  cases hw : env.win32 with
  | true => simp [BINARY_NAME]
  | false =>
    have hch : fsChmod ⟨[("bivvy", ⟨m.content, m.mode⟩)]⟩ "bivvy" 493 =
        Except.ok ⟨[("bivvy", ⟨m.content, 493⟩)]⟩ := by
      unfold fsChmod fsLookup fsWrite
      simp [List.find?, List.filter]
    simp [BINARY_NAME, hch]

/-- Witness for C6: the one-entry-plus-two-decoys archive installs exactly one
file `bivvy` with content `[1, 2]` and mode `0o755`. -/
theorem claim_C6_witness :
    (download_binary envOne stEmpty).2 = Except.ok () ∧
    (download_binary envOne stEmpty).1.fs.files = [("bivvy", ⟨[1, 2], 493⟩)] :=
  ⟨(claim_C6 envOne stEmpty "darwin-arm64"
      [⟨"LICENSE", [9], 420⟩, ⟨"bivvy", [1, 2], 493⟩, ⟨"checksums.txt", [3], 420⟩]
      ⟨"bivvy", [1, 2], 493⟩ (by decide) rfl (by decide) rfl).1,
    (claim_C6 envOne stEmpty "darwin-arm64"
      [⟨"LICENSE", [9], 420⟩, ⟨"bivvy", [1, 2], 493⟩, ⟨"checksums.txt", [3], 420⟩]
      ⟨"bivvy", [1, 2], 493⟩ (by decide) rfl (by decide) rfl).2.1⟩

/-- Claim C7: starting with no cache entry, on a supported platform whose
archive does contain a `bivvy` entry, the first `main` run performs exactly one
fetch and leaves the cache entry present, and a second `main` run changes
nothing (in particular fetches nothing) and directly launches the cached
binary with the forwarded arguments. -/
theorem claim_C7 (env : Env) (st : State) (plat : String) (members : List TarMember)
    (hplat : get_platform env.system env.machine = Except.ok plat)
    (hfetch : env.fetch (bivvyUrl plat) = Except.ok members)
    (hmem : members.filter (fun x => x.name == "bivvy") ≠ [])
    (habsent : (fsLookup st.fs (BINARY_NAME env.win32)).isSome = false) :
    (main env st).1.fetched = st.fetched ++ [bivvyUrl plat] ∧
    (fsLookup (main env st).1.fs (BINARY_NAME env.win32)).isSome = true ∧
    main env (main env st).1 = ((main env st).1,
      MainResult.exited (BINARY_NAME env.win32 :: env.argv)
        (env.runChild (BINARY_NAME env.win32 :: env.argv))) := by
  have hlastne : (members.filter (fun x => x.name == "bivvy")).getLast? ≠ none := by
    intro hcon
    exact hmem (List.getLast?_eq_none_iff.mp hcon)
  obtain ⟨m, hm⟩ := Option.ne_none_iff_exists'.mp hlastne
  obtain ⟨hok, hfetched, hlook⟩ :=
    download_binary_run env st plat members m hplat hfetch hm
  have hens : ensure_binary env st =
      ((download_binary env st).1, Except.ok (BINARY_NAME env.win32)) := by
    unfold ensure_binary
    simp only [habsent, Bool.false_eq_true, if_false]
    rcases hdb : download_binary env st with ⟨std, r⟩
    rw [hdb] at hok
    cases r with
    | error e => cases hok
    | ok u => rfl
  have hsome : (fsLookup (download_binary env st).1.fs (BINARY_NAME env.win32)).isSome =
      true := by
    rw [hlook]
    rfl
  have hmain1 : main env st = ((download_binary env st).1,
      MainResult.exited (BINARY_NAME env.win32 :: env.argv)
        (env.runChild (BINARY_NAME env.win32 :: env.argv))) := by
    unfold main
    rw [hens]
    simp [hsome]
  refine ⟨?_, ?_, ?_⟩
  · rw [hmain1]
    exact hfetched
  · rw [hmain1]
    exact hsome
  · rw [hmain1]
    exact main_cached env (download_binary env st).1 hsome

/-- Witness for C7: two consecutive runs on the Darwin host fetch the release
URL exactly once, and the second run launches the cached binary directly. -/
theorem claim_C7_witness :
    (main envOne stEmpty).1.fetched = [bivvyUrl "darwin-arm64"] ∧
    main envOne (main envOne stEmpty).1 = ((main envOne stEmpty).1,
      MainResult.exited ["bivvy", "--version"] 3) :=
  ⟨(claim_C7 envOne stEmpty "darwin-arm64"
      [⟨"LICENSE", [9], 420⟩, ⟨"bivvy", [1, 2], 493⟩, ⟨"checksums.txt", [3], 420⟩]
      (by decide) rfl (by decide) rfl).1,
    (claim_C7 envOne stEmpty "darwin-arm64"
      [⟨"LICENSE", [9], 420⟩, ⟨"bivvy", [1, 2], 493⟩, ⟨"checksums.txt", [3], 420⟩]
      (by decide) rfl (by decide) rfl).2.2⟩

/-- Claim C8: the artifact URL is the pure concatenation of the fixed host and
repo identifier, the verbatim build-time version and the platform tag;
concretely it is the exact documented string, and `download_binary` requests
exactly that URL (its only fetch) whenever the platform resolves. -/
theorem claim_C8 (plat : String) (env : Env) (st : State) :
    bivvyUrl plat = "https://github.com/" ++ GITHUB_REPO ++ "/releases/download/" ++
      version ++ "/bivvy-" ++ plat ++ ".tar.gz" ∧
    bivvyUrl "linux-x64" =
      "https://github.com/bivvy-dev/bivvy/releases/download/1.0.1/bivvy-linux-x64.tar.gz" ∧
    (∀ plat2, get_platform env.system env.machine = Except.ok plat2 →
      (download_binary env st).1.fetched = st.fetched ++ [bivvyUrl plat2]) := by
  refine ⟨rfl, by decide, fun plat2 h => ?_⟩
  simp only [download_binary, h]
  cases hf : env.fetch (bivvyUrl plat2) with
  | error e => simp [hf]
  | ok members =>
    simp only [hf]
    cases hw : env.win32 with
    | true => simp
    | false =>
      simp only [Bool.false_eq_true, if_false]
      cases hc : fsChmod (extractLoop false st.fs members).1 (BINARY_NAME false) 493 with
      | error e => simp [hc]
      | ok fs2 => simp [hc]

/-- Witness for C8: the Darwin run requests exactly the arm64 release URL. -/
theorem claim_C8_witness :
    (download_binary envOne stEmpty).1.fetched = [bivvyUrl "darwin-arm64"] :=
  (claim_C8 "darwin-arm64" envOne stEmpty).2.2 "darwin-arm64" (by decide)

/-- Claim C9: with a supported platform, an initially absent cache entry and an
archive containing no `bivvy` entry, the outcome differs by platform: on
non-Windows `download_binary` raises `FileNotFoundError` at the `chmod` of the
absent cache path and the cache stays as it was, while on Windows it returns
normally (cache still unchanged) and prints the success message. -/
theorem claim_C9 (env : Env) (st : State) (plat : String) (members : List TarMember)
    (hplat : get_platform env.system env.machine = Except.ok plat)
    (hfetch : env.fetch (bivvyUrl plat) = Except.ok members)
    (hnone : ∀ m ∈ members, ¬ m.name = "bivvy")
    (habsent : fsLookup st.fs (BINARY_NAME env.win32) = none) :
    (env.win32 = false →
      (download_binary env st).2 =
        Except.error (BivvyError.fileNotFound (BINARY_NAME env.win32)) ∧
      (download_binary env st).1.fs = st.fs) ∧
    (env.win32 = true →
      (download_binary env st).2 = Except.ok () ∧
      (download_binary env st).1.fs = st.fs ∧
      "bivvy installed successfully" ∈ (download_binary env st).1.log) := by
  have hext := extractLoop_no_match env.win32 st.fs members hnone
  simp only [download_binary, hplat, hfetch, hext]
  constructor
  · intro hw
    rw [hw] at habsent ⊢
    simp only [Bool.false_eq_true, if_false]
    have hch : fsChmod st.fs (BINARY_NAME false) 493 =
        Except.error (BivvyError.fileNotFound (BINARY_NAME false)) := by
      unfold fsChmod
      rw [habsent]
    simp [hch]
  · intro hw
    rw [hw]
    simp

/-- Witness for C9: on the Linux host the install run fails with
`FileNotFoundError` at the cache path, while the same archive on the Windows
host installs nothing and still prints the success message. -/
theorem claim_C9_witness :
    (download_binary envNoEntry stEmpty).2 =
      Except.error (BivvyError.fileNotFound "bivvy") ∧
    (download_binary envWinNoEntry stEmpty).2 = Except.ok () ∧
    "bivvy installed successfully" ∈ (download_binary envWinNoEntry stEmpty).1.log :=
  ⟨((claim_C9 envNoEntry stEmpty "linux-x64"
      [⟨"LICENSE", [76], 420⟩, ⟨"README.md", [82], 420⟩]
      (by decide) rfl (by decide) rfl).1 rfl).1,
    ((claim_C9 envWinNoEntry stEmpty "windows-x64"
      [⟨"LICENSE", [76], 420⟩, ⟨"README.md", [82], 420⟩]
      (by decide) rfl (by decide) rfl).2 rfl).1,
    ((claim_C9 envWinNoEntry stEmpty "windows-x64"
      [⟨"LICENSE", [76], 420⟩, ⟨"README.md", [82], 420⟩]
      (by decide) rfl (by decide) rfl).2 rfl).2.2⟩

/-- Claim C10: when the filtered list of members named `bivvy` is `l` (here
with at least two entries), the extraction step writes one file per element of
`l`, all to the same destination name, in archive order; consequently the
content installed by `download_binary` is that of the last matching entry. -/
theorem claim_C10 (env : Env) (st : State) (plat : String)
    (members l : List TarMember) (m : TarMember)
    (hplat : get_platform env.system env.machine = Except.ok plat)
    (hfetch : env.fetch (bivvyUrl plat) = Except.ok members)
    (hl : members.filter (fun x => x.name == "bivvy") = l)
    (_hlen : 2 ≤ l.length)
    (hlast : l.getLast? = some m) :
    (extractLoop env.win32 st.fs members).2 =
      l.map (fun x => (BINARY_NAME env.win32, (⟨x.content, x.mode⟩ : FSFile))) ∧
    (download_binary env st).2 = Except.ok () ∧
    (fsLookup (download_binary env st).1.fs (BINARY_NAME env.win32)).map
      (fun f => f.content) = some m.content := by
  have hlog := extractLoop_log env.win32 members st.fs
  rw [hl] at hlog
  have hrun := download_binary_run env st plat members m hplat hfetch
    (by rw [hl]; exact hlast)
  refine ⟨hlog, hrun.1, ?_⟩
  rw [hrun.2.2]
  rfl

/-- Witness for C10: with two `bivvy` entries of contents `[1]` and `[2, 2]`,
both are extracted to the same path in order and the installed content is
`[2, 2]`, the last one. -/
theorem claim_C10_witness :
    (extractLoop false stEmpty.fs [⟨"bivvy", [1], 420⟩, ⟨"bivvy", [2, 2], 493⟩]).2 =
      [("bivvy", ⟨[1], 420⟩), ("bivvy", ⟨[2, 2], 493⟩)] ∧
    (fsLookup (download_binary envTwo stEmpty).1.fs "bivvy").map
      (fun f => f.content) = some [2, 2] :=
  ⟨(claim_C10 envTwo stEmpty "linux-arm64"
      [⟨"bivvy", [1], 420⟩, ⟨"bivvy", [2, 2], 493⟩]
      [⟨"bivvy", [1], 420⟩, ⟨"bivvy", [2, 2], 493⟩] ⟨"bivvy", [2, 2], 493⟩
      (by decide) rfl (by decide) (by decide) (by decide)).1,
    (claim_C10 envTwo stEmpty "linux-arm64"
      [⟨"bivvy", [1], 420⟩, ⟨"bivvy", [2, 2], 493⟩]
      [⟨"bivvy", [1], 420⟩, ⟨"bivvy", [2, 2], 493⟩] ⟨"bivvy", [2, 2], 493⟩
      (by decide) rfl (by decide) (by decide) (by decide)).2.2⟩

end Bivvy
